import Mathlib

/-!
Verification of `observable_properties.py` (observable managed attributes).

The Python module declares observable properties with an `observable`
descriptor (a `property` subclass).  On class creation, for each declared
property `p`, `observable` installs two list-valued attributes on the
owning class, named by the schemes modelled below, holding the subscriber
list and the re-entrancy ("recursions") guard.  The free functions
`subscribe` / `unsubscribe`, the descriptor hooks (set, delete) and the
`Observable` mixin's manual notification are embedded here as explicit
state-passing functions.

Modelling notes, checked against the source line by line:
* Python attribute lookup `getattr(instance, n)` first consults the
  instance dictionary and then falls back to the class dictionary; the
  lists created by the descriptor live only in the class dictionary and
  are mutated in place, never re-bound.  The embedding therefore keeps a
  heap of lists addressed by references, a class dictionary mapping
  attribute names to references, and (always empty, but kept for
  faithfulness of `getattr` / `delattr`) per-instance dictionaries.
* Callbacks are opaque callables compared by identity.  Their observable
  behaviour is restricted to what the claims exercise: return normally,
  raise an exception, or assign a value to the observed property of some
  instance (which re-enters the descriptor's set hook).  No modelled
  callback mutates the subscriber list itself, so iterating over the list
  captured at the start of a cycle coincides with Python's live
  iteration.
* Backing storage of a property is modelled as a per-(instance, name)
  optional value: the property's getter/setter/deleter are assumed to be
  the standard ones reading/writing/deleting a private backing field.
* The guard-violation branch formats an error message that reads
  `observer.__name__` before raising; for a callable without a
  `__name__` attribute that read itself raises `AttributeError`.  The
  exception produced by that branch therefore depends on a `hasName`
  flag of the callback.
-/

namespace ObservableProps

/-- Python exception kinds distinguished by the embedding. -/
inductive PyExc where
  | observablePropertyError
  | attributeError
  | userError
  | recursionError
deriving DecidableEq, Repr

/-- Observable behaviour of a modelled callback body: return normally,
raise an (arbitrary, non-library) exception, or assign `newVal` to the
observed property of instance `target` — re-entering the set hook. -/
inductive CbBehavior where
  | ret
  | raiseErr
  | assign (target : Nat) (newVal : Int)
deriving DecidableEq, Repr

/-- Whether a modelled callback body performs an assignment. -/
def CbBehavior.isAssign : CbBehavior → Bool
  | CbBehavior.assign _ _ => true
  | _ => false

/-- A callback (Python callable), compared by identity (`id`).  `hasName`
records whether the callable carries a `__name__` attribute. -/
structure Callback where
  id : Nat
  hasName : Bool
  behavior : CbBehavior
deriving DecidableEq, Repr

/-- One callback invocation event: callback `cb` was called with the
arguments `(instance, property_name, value)`. -/
structure CallEv where
  cb : Nat
  inst : Nat
  prop : String
  val : Int
deriving DecidableEq, Repr

instance {e a : Type} [DecidableEq e] [DecidableEq a] : DecidableEq (Except e a) := fun x y =>
  match x, y with
  | Except.ok u, Except.ok v => decidable_of_iff (u = v) (by simp)
  | Except.ok _, Except.error _ => Decidable.isFalse (by simp)
  | Except.error _, Except.ok _ => Decidable.isFalse (by simp)
  | Except.error d, Except.error f => decidable_of_iff (d = f) (by simp)

/-- The modelled interpreter state.  `heap` stores the shared mutable
list objects; `classAttrs` is the owning class's dictionary (restricted
to the list-valued attributes the module creates); `instAttrs` are the
instance dictionaries for those names (never populated by the module);
`value` is the per-instance backing store of the properties. -/
structure PyState where
  nextRef : Nat
  heap : Nat → List Callback
  classAttrs : String → Option Nat
  instAttrs : Nat → String → Option Nat
  value : Nat → String → Option Int

theorem PyState.ext2 {s t : PyState} (h1 : s.nextRef = t.nextRef)
    (h2 : s.heap = t.heap) (h3 : s.classAttrs = t.classAttrs)
    (h4 : s.instAttrs = t.instAttrs) (h5 : s.value = t.value) : s = t := by
  cases s; cases t; simp_all

/-- Name of the class attribute holding the subscriber list of property
`p`, as computed by the source's formatted string. -/
def subscribersAttrName (p : String) : String := "__" ++ p ++ "_subscribers"

/-- Name of the class attribute holding the recursion guard of property
`p`, as computed by the source's formatted string. -/
def recursionsAttrName (p : String) : String := "__" ++ p ++ "_recursions"

/-- `getattr(instance, n)` for the list-valued attributes: instance
dictionary first, then the class dictionary. -/
def getattrList (s : PyState) (inst : Nat) (n : String) : Option Nat :=
  match s.instAttrs inst n with
  | some r => some r
  | none => s.classAttrs n

/-- Overwrite the contents of the list object at reference `r`. -/
def writeHeap (s : PyState) (r : Nat) (l : List Callback) : PyState :=
  { s with heap := fun r2 => if r2 = r then l else s.heap r2 }

/-- The property setter's effect: store `v` as the backing value of
property `p` on instance `inst`. -/
def storeValue (s : PyState) (inst : Nat) (p : String) (v : Int) : PyState :=
  { s with value := fun i q => if i = inst ∧ q = p then some v else s.value i q }

/-- `setattr(owner, n, [])`: allocate a fresh empty list object and bind
it to name `n` in the class dictionary. -/
def allocClassList (s : PyState) (n : String) : PyState :=
  { s with
    nextRef := s.nextRef + 1
    heap := fun r => if r = s.nextRef then [] else s.heap r
    classAttrs := fun m => if m = n then some s.nextRef else s.classAttrs m }

/-- `observable.__set_name__(owner, owner_name)` for property `p`: bind
empty subscriber and recursion lists in the class dictionary unless the
names are already present. -/
def setNameInit (p : String) (s : PyState) : PyState :=
  let s1 := if (s.classAttrs (subscribersAttrName p)).isSome then s
            else allocClassList s (subscribersAttrName p)
  if (s1.classAttrs (recursionsAttrName p)).isSome then s1
  else allocClassList s1 (recursionsAttrName p)

/-- The state with no attributes and no values. -/
def emptyState : PyState :=
  { nextRef := 0
    heap := fun _ => []
    classAttrs := fun _ => none
    instAttrs := fun _ _ => none
    value := fun _ _ => none }

/-- State of a freshly created class declaring the observable properties
`props` (the descriptor's name hook ran once per declared property, in
declaration order). -/
def initState (props : List String) : PyState :=
  props.foldl (fun s p => setNameInit p s) emptyState

/-- Free function `unsubscribe(callback, instance, property_name)`:
if the subscriber-list attribute resolves, remove the first matching
entry and report whether one was removed; otherwise raise
`ObservablePropertyError`. -/
def unsubscribe (s : PyState) (cb : Callback) (inst : Nat) (p : String) :
    PyState × Except PyExc Bool :=
  match getattrList s inst (subscribersAttrName p) with
  | some r =>
    let subscribers := s.heap r
    if cb ∈ subscribers then (writeHeap s r (subscribers.erase cb), Except.ok true)
    else (s, Except.ok false)
  | none => (s, Except.error PyExc.observablePropertyError)

/-- Free function `subscribe(callback, instance, property_name)`: first
`unsubscribe` (propagating its failure), then append the callback to the
subscriber list resolved by `getattr`. -/
def subscribe (s : PyState) (cb : Callback) (inst : Nat) (p : String) :
    PyState × Except PyExc Unit :=
  match unsubscribe s cb inst p with
  | (s1, Except.error e) => (s1, Except.error e)
  | (s1, Except.ok _) =>
    match getattrList s1 inst (subscribersAttrName p) with
    | some r => (writeHeap s1 r (s1.heap r ++ [cb]), Except.ok ())
    | none => (s1, Except.error PyExc.attributeError)

/-- One observer call inside `observable.__execute_callbacks`:
the observer is called with `(instance, property_name, value)` (logged
as an event) and then runs its modelled body; an `assign` body re-enters
the descriptor's set hook, supplied here as `nested`. -/
def invokeWith
    (nested : Nat → String → Int → PyState → PyState × List CallEv × Except PyExc Unit)
    (inst : Nat) (p : String) (v : Int) (observer : Callback) (s : PyState) :
    PyState × List CallEv × Except PyExc Unit :=
  let ev : CallEv := ⟨observer.id, inst, p, v⟩
  match observer.behavior with
  | CbBehavior.ret => (s, [ev], Except.ok ())
  | CbBehavior.raiseErr => (s, [ev], Except.error PyExc.userError)
  | CbBehavior.assign tgt w =>
    let res := nested tgt p w s
    (res.1, ev :: res.2.1, res.2.2)

/-- `observable.__execute_callbacks(instance, value, subscribers,
recursions)`: for each observer of the subscriber list, if it is already
in the recursion guard, raise — the error message reads
`observer.__name__`, so a callable without that attribute raises
`AttributeError` instead of `ObservablePropertyError`; otherwise append
it to the guard and call it.  The guard list object (reference
`recsRef`) is read live at every step, since nested set calls mutate it
in place. -/
def execCallbacksWith
    (nested : Nat → String → Int → PyState → PyState × List CallEv × Except PyExc Unit)
    (inst : Nat) (p : String) (v : Int) (recsRef : Nat) :
    List Callback → PyState → PyState × List CallEv × Except PyExc Unit
  | [], s => (s, [], Except.ok ())
  | observer :: rest, s =>
    if observer ∈ s.heap recsRef then
      (s, [], Except.error
        (if observer.hasName then PyExc.observablePropertyError else PyExc.attributeError))
    else
      let s1 := writeHeap s recsRef (s.heap recsRef ++ [observer])
      match invokeWith nested inst p v observer s1 with
      | (s2, tr, Except.ok _) =>
        let res := execCallbacksWith nested inst p v recsRef rest s2
        (res.1, tr ++ res.2.1, res.2.2)
      | (s2, tr, Except.error e) => (s2, tr, Except.error e)

/-- `observable.__set__(instance, value)`: resolve the subscriber list
and the recursion guard via `getattr`, store the value through the
property setter, execute the callbacks, and clear the guard
unconditionally (`finally`) whether or not the callbacks raised.  The
`fuel` counts nested Python activation frames; exhausting it models
`RecursionError` (unreachable under the guard with adequate fuel). -/
def observableSet : Nat → Nat → String → Int → PyState →
    PyState × List CallEv × Except PyExc Unit
  | 0, _, _, _, s => (s, [], Except.error PyExc.recursionError)
  | fuel + 1, inst, p, v, s =>
    match getattrList s inst (subscribersAttrName p),
          getattrList s inst (recursionsAttrName p) with
    | some rs, some rr =>
      let s1 := storeValue s inst p v
      let res := execCallbacksWith (observableSet fuel) inst p v rr (s1.heap rs) s1
      (writeHeap res.1 rr [], res.2.1, res.2.2)
    | _, _ => (s, [], Except.error PyExc.attributeError)

/-- `observable._run_observers(instance, value)`: like the set hook but
without storing a value — execute the callbacks on the current lists and
clear the guard unconditionally. -/
def runObservers (fuel : Nat) (inst : Nat) (p : String) (v : Int) (s : PyState) :
    PyState × List CallEv × Except PyExc Unit :=
  match getattrList s inst (subscribersAttrName p),
        getattrList s inst (recursionsAttrName p) with
  | some rs, some rr =>
    let res := execCallbacksWith (observableSet fuel) inst p v rr (s.heap rs) s
    (writeHeap res.1 rr [], res.2.1, res.2.2)
  | _, _ => (s, [], Except.error PyExc.attributeError)

/-- `Observable._observable_notify(property_name)`: if `property_name`
is a declared observable property of the instance's class, read the
current value through the getter (raising `AttributeError` when the
backing field is unset) and run the observers; otherwise raise
`ObservablePropertyError`. -/
def observableNotify (fuel : Nat) (props : List String) (inst : Nat) (p : String)
    (s : PyState) : PyState × List CallEv × Except PyExc Unit :=
  if p ∈ props then
    match s.value inst p with
    | some v => runObservers fuel inst p v s
    | none => (s, [], Except.error PyExc.attributeError)
  else (s, [], Except.error PyExc.observablePropertyError)

/-- `observable.__delete__(instance)`: run the property deleter (assumed
to be the standard one deleting the private backing field, raising
`AttributeError` when it is unset), then `delattr` the subscriber-list
and guard attributes from the instance.  Those names live only in the
class dictionary, never in an instance dictionary, so the first
`delattr` raises `AttributeError` and the lists survive. -/
def observableDelete (s : PyState) (inst : Nat) (p : String) :
    PyState × Except PyExc Unit :=
  match s.value inst p with
  | some _ =>
    let s1 : PyState :=
      { s with value := fun i q => if i = inst ∧ q = p then none else s.value i q }
    match s1.instAttrs inst (subscribersAttrName p) with
    | some _ =>
      let s2 : PyState :=
        { s1 with instAttrs := fun i n =>
            if i = inst ∧ n = subscribersAttrName p then none else s1.instAttrs i n }
      match s2.instAttrs inst (recursionsAttrName p) with
      | some _ =>
        ({ s2 with instAttrs := fun i n =>
             if i = inst ∧ n = recursionsAttrName p then none else s2.instAttrs i n },
         Except.ok ())
      | none => (s2, Except.error PyExc.attributeError)
    | none => (s1, Except.error PyExc.attributeError)
  | none => (s, Except.error PyExc.attributeError)

/-! ### Basic state lemmas -/

@[simp] theorem writeHeap_heap (s : PyState) (r : Nat) (l : List Callback) (r2 : Nat) :
    (writeHeap s r l).heap r2 = if r2 = r then l else s.heap r2 := rfl

@[simp] theorem writeHeap_classAttrs (s : PyState) (r : Nat) (l : List Callback) :
    (writeHeap s r l).classAttrs = s.classAttrs := rfl

@[simp] theorem writeHeap_instAttrs (s : PyState) (r : Nat) (l : List Callback) :
    (writeHeap s r l).instAttrs = s.instAttrs := rfl

@[simp] theorem writeHeap_value (s : PyState) (r : Nat) (l : List Callback) :
    (writeHeap s r l).value = s.value := rfl

@[simp] theorem storeValue_heap (s : PyState) (inst : Nat) (p : String) (v : Int) :
    (storeValue s inst p v).heap = s.heap := rfl

@[simp] theorem storeValue_classAttrs (s : PyState) (inst : Nat) (p : String) (v : Int) :
    (storeValue s inst p v).classAttrs = s.classAttrs := rfl

@[simp] theorem storeValue_instAttrs (s : PyState) (inst : Nat) (p : String) (v : Int) :
    (storeValue s inst p v).instAttrs = s.instAttrs := rfl

@[simp] theorem storeValue_value (s : PyState) (inst : Nat) (p : String) (v : Int)
    (i : Nat) (q : String) :
    (storeValue s inst p v).value i q = if i = inst ∧ q = p then some v else s.value i q := rfl

theorem writeHeap_writeHeap (s : PyState) (r : Nat) (l1 l2 : List Callback) :
    writeHeap (writeHeap s r l1) r l2 = writeHeap s r l2 := by
  refine PyState.ext2 rfl ?_ rfl rfl rfl
  funext r2
  by_cases h : r2 = r <;> simp [writeHeap, h]

theorem writeHeap_self (s : PyState) (r : Nat) : writeHeap s r (s.heap r) = s := by
  refine PyState.ext2 rfl ?_ rfl rfl rfl
  funext r2
  by_cases h : r2 = r <;> simp [writeHeap, h]

/-- The standard attribute-resolution situation for instance `inst` and
property `p`: the instance dictionary holds neither list attribute, and
the class dictionary binds them to the distinct references `rs`
(subscribers) and `rr` (recursion guard).  This is exactly the shape
produced by class creation, for every instance. -/
structure ResolvesTo (s : PyState) (inst : Nat) (p : String) (rs rr : Nat) : Prop where
  instSubs : s.instAttrs inst (subscribersAttrName p) = none
  instRecs : s.instAttrs inst (recursionsAttrName p) = none
  clsSubs : s.classAttrs (subscribersAttrName p) = some rs
  clsRecs : s.classAttrs (recursionsAttrName p) = some rr
  refsNe : rs ≠ rr

theorem ResolvesTo.getSubs {s : PyState} {inst : Nat} {p : String} {rs rr : Nat}
    (h : ResolvesTo s inst p rs rr) :
    getattrList s inst (subscribersAttrName p) = some rs := by
  simp [getattrList, h.instSubs, h.clsSubs]

theorem ResolvesTo.getRecs {s : PyState} {inst : Nat} {p : String} {rs rr : Nat}
    (h : ResolvesTo s inst p rs rr) :
    getattrList s inst (recursionsAttrName p) = some rr := by
  simp [getattrList, h.instRecs, h.clsRecs]

/-! ### Preservation lemmas: the notification machinery only touches the
heap and the backing store, never the attribute dictionaries. -/

theorem execCallbacksWith_preserves
    (nested : Nat → String → Int → PyState → PyState × List CallEv × Except PyExc Unit)
    (hn : ∀ (t : Nat) (q : String) (w : Int) (s2 : PyState),
      ((nested t q w s2).1).classAttrs = s2.classAttrs ∧
      ((nested t q w s2).1).instAttrs = s2.instAttrs)
    (inst : Nat) (p : String) (v : Int) (recsRef : Nat) (l : List Callback) :
    ∀ s : PyState,
      ((execCallbacksWith nested inst p v recsRef l s).1).classAttrs = s.classAttrs ∧
      ((execCallbacksWith nested inst p v recsRef l s).1).instAttrs = s.instAttrs := by
  induction l with
  | nil => intro s; exact ⟨rfl, rfl⟩
  | cons observer rest ih =>
    intro s
    unfold execCallbacksWith
    by_cases hmem : observer ∈ s.heap recsRef
    · simp [hmem]
    · simp only [hmem, if_false]
      cases hb : observer.behavior with
      | ret =>
        simp only [invokeWith, hb]
        have h2 := ih (writeHeap s recsRef (s.heap recsRef ++ [observer]))
        simpa using h2
      | raiseErr =>
        simp [invokeWith, hb]
      | assign tgt w =>
        simp only [invokeWith, hb]
        have hnest := hn tgt p w (writeHeap s recsRef (s.heap recsRef ++ [observer]))
        cases hr : (nested tgt p w (writeHeap s recsRef (s.heap recsRef ++ [observer]))).2.2 with
        | ok u =>
          have h2 := ih (nested tgt p w (writeHeap s recsRef (s.heap recsRef ++ [observer]))).1
          simp only [hr]
          simp only [writeHeap_classAttrs, writeHeap_instAttrs] at hnest
          exact ⟨h2.1.trans hnest.1, h2.2.trans hnest.2⟩
        | error e =>
          simp only [hr]
          simp only [writeHeap_classAttrs, writeHeap_instAttrs] at hnest
          exact hnest

theorem observableSet_preserves (fuel : Nat) :
    ∀ (inst : Nat) (p : String) (v : Int) (s : PyState),
      ((observableSet fuel inst p v s).1).classAttrs = s.classAttrs ∧
      ((observableSet fuel inst p v s).1).instAttrs = s.instAttrs := by
  induction fuel with
  | zero => intro inst p v s; exact ⟨rfl, rfl⟩
  | succ f ih =>
    intro inst p v s
    unfold observableSet
    cases h1 : getattrList s inst (subscribersAttrName p) with
    | none => simp
    | some rs =>
      cases h2 : getattrList s inst (recursionsAttrName p) with
      | none => simp
      | some rr =>
        simp only []
        have hex := execCallbacksWith_preserves (observableSet f) ih inst p v rr
          ((storeValue s inst p v).heap rs) (storeValue s inst p v)
        simp only [storeValue_classAttrs, storeValue_instAttrs] at hex
        simpa using hex

/-! ### Clean-cycle specification: callbacks that return normally -/

theorem execCallbacksWith_ret
    (nested : Nat → String → Int → PyState → PyState × List CallEv × Except PyExc Unit)
    (inst : Nat) (p : String) (v : Int) (recsRef : Nat) (l : List Callback) :
    ∀ s : PyState, (∀ cb ∈ l, cb.behavior = CbBehavior.ret) →
      (∀ cb ∈ l, cb ∉ s.heap recsRef) → l.Nodup →
      execCallbacksWith nested inst p v recsRef l s =
        (writeHeap s recsRef (s.heap recsRef ++ l),
         l.map (fun cb => ⟨cb.id, inst, p, v⟩), Except.ok ()) := by
  induction l with
  | nil =>
    intro s _ _ _
    simp [execCallbacksWith, writeHeap_self]
  | cons observer rest ih =>
    intro s hret hnotin hnd
    have hmem : observer ∉ s.heap recsRef := hnotin observer (by simp)
    unfold execCallbacksWith
    simp only [hmem, if_false]
    have hb : observer.behavior = CbBehavior.ret := hret observer (by simp)
    simp only [invokeWith, hb]
    have hrest := ih (writeHeap s recsRef (s.heap recsRef ++ [observer]))
      (fun cb hcb => hret cb (by simp [hcb]))
      (fun cb hcb hin => by
        simp only [writeHeap_heap, if_true] at hin
        rcases List.mem_append.mp hin with h1 | h2
        · exact hnotin cb (by simp [hcb]) h1
        · exact (List.nodup_cons.mp hnd).1 ((List.mem_singleton.mp h2) ▸ hcb))
      (List.nodup_cons.mp hnd).2
    simp only [hrest, writeHeap_writeHeap, writeHeap_heap, if_pos rfl]
    simp [List.append_assoc]

/-- Full specification of the set hook on a cycle whose subscribers all
return normally: the value is stored, every subscriber is called exactly
once in list order with the new value, the call succeeds, and the guard
ends empty. -/
theorem observableSet_ret_spec (fuel : Nat) (inst : Nat) (p : String) (v : Int)
    (s : PyState) (rs rr : Nat)
    (h : ResolvesTo s inst p rs rr) (hrecs : s.heap rr = [])
    (hnd : (s.heap rs).Nodup)
    (hret : ∀ cb ∈ s.heap rs, cb.behavior = CbBehavior.ret) :
    observableSet (fuel + 1) inst p v s =
      (writeHeap (storeValue s inst p v) rr [],
       (s.heap rs).map (fun cb => ⟨cb.id, inst, p, v⟩), Except.ok ()) := by
  unfold observableSet
  rw [h.getSubs, h.getRecs]
  simp only [storeValue_heap]
  have hex := execCallbacksWith_ret (observableSet fuel) inst p v rr (s.heap rs)
    (storeValue s inst p v) hret
    (fun cb _ => by simp [storeValue_heap, hrecs])
    hnd
  simp only [hex, writeHeap_writeHeap]

/-! ### Value preservation: callbacks that never assign leave the
backing store exactly as the set hook wrote it. -/

theorem execCallbacksWith_value
    (nested : Nat → String → Int → PyState → PyState × List CallEv × Except PyExc Unit)
    (inst : Nat) (p : String) (v : Int) (recsRef : Nat) (l : List Callback) :
    ∀ s : PyState,
      (∀ cb ∈ l, cb.behavior.isAssign = false) →
      ((execCallbacksWith nested inst p v recsRef l s).1).value = s.value := by
  induction l with
  | nil => intro s _; rfl
  | cons observer rest ih =>
    intro s hna
    unfold execCallbacksWith
    by_cases hmem : observer ∈ s.heap recsRef
    · simp [hmem]
    · simp only [hmem, if_false]
      cases hb : observer.behavior with
      | ret =>
        simp only [invokeWith, hb]
        have h2 := ih (writeHeap s recsRef (s.heap recsRef ++ [observer]))
          (fun cb hcb => hna cb (by simp [hcb]))
        simpa using h2
      | raiseErr =>
        simp [invokeWith, hb]
      | assign tgt w =>
        have hfalse := hna observer (by simp)
        rw [hb] at hfalse
        exact absurd hfalse (by simp [CbBehavior.isAssign])

/-! ### Re-entrancy specification: a lone subscriber that assigns to the
observed property of the observed instance from inside its own
notification.  The nested set hook stores the new value, then finds the
callback already in the guard and raises — `ObservablePropertyError`
when the callable has a `__name__` attribute, `AttributeError` (from
formatting the error message) when it does not.  Both `finally` blocks
clear the guard and the failure propagates to the outer assignment. -/

theorem observableSet_reentrant (fuel : Nat) (inst : Nat) (p : String) (v w : Int)
    (s : PyState) (rs rr : Nat) (cb : Callback)
    (h : ResolvesTo s inst p rs rr) (hb : cb.behavior = CbBehavior.assign inst w)
    (hsubs : s.heap rs = [cb]) (hrecs : s.heap rr = []) :
    observableSet (fuel + 2) inst p v s =
      (writeHeap (storeValue (writeHeap (storeValue s inst p v) rr [cb]) inst p w) rr [],
       [⟨cb.id, inst, p, v⟩],
       Except.error (if cb.hasName then PyExc.observablePropertyError
                     else PyExc.attributeError)) := by
  have hstep : (fuel + 2) = (fuel + 1) + 1 := rfl
  rw [hstep]
  unfold observableSet
  rw [h.getSubs, h.getRecs]
  simp only [storeValue_heap, hsubs]
  unfold execCallbacksWith
  simp only [storeValue_heap, hrecs, List.not_mem_nil, if_false, List.nil_append]
  simp only [invokeWith, hb]
  have h2 : ResolvesTo (writeHeap (storeValue s inst p v) rr [cb]) inst p rs rr :=
    ⟨h.instSubs, h.instRecs, h.clsSubs, h.clsRecs, h.refsNe⟩
  unfold observableSet
  rw [h2.getSubs, h2.getRecs]
  simp only [storeValue_heap, writeHeap_heap, if_neg h.refsNe, hsubs]
  unfold execCallbacksWith
  simp only [storeValue_heap, writeHeap_heap, if_true, List.mem_singleton]
  simp [writeHeap_writeHeap]

/-! ### The attribute-name schemes collide only as intended -/

theorem subscribersAttrName_data (p : String) :
    (subscribersAttrName p).data = '_' :: '_' :: (p.data ++ ("_subscribers").data) := by
  have h1 : (subscribersAttrName p).data =
      ("__").data ++ p.data ++ ("_subscribers").data := rfl
  simpa using h1

theorem recursionsAttrName_data (p : String) :
    (recursionsAttrName p).data = '_' :: '_' :: (p.data ++ ("_recursions").data) := by
  have h1 : (recursionsAttrName p).data =
      ("__").data ++ p.data ++ ("_recursions").data := rfl
  simpa using h1

theorem subscribersAttrName_inj {p q : String}
    (h : subscribersAttrName p = subscribersAttrName q) : p = q := by
  have hd := congrArg String.data h
  rw [subscribersAttrName_data, subscribersAttrName_data] at hd
  simp only [List.cons.injEq, true_and] at hd
  have hp := List.append_cancel_right hd
  cases p; cases q; exact congrArg String.mk hp

theorem recursionsAttrName_inj {p q : String}
    (h : recursionsAttrName p = recursionsAttrName q) : p = q := by
  have hd := congrArg String.data h
  rw [recursionsAttrName_data, recursionsAttrName_data] at hd
  simp only [List.cons.injEq, true_and] at hd
  have hp := List.append_cancel_right hd
  cases p; cases q; exact congrArg String.mk hp

theorem subscribersAttrName_ne_recursionsAttrName (p q : String) :
    subscribersAttrName p ≠ recursionsAttrName q := by
  intro h
  have hd := congrArg String.data h
  rw [subscribersAttrName_data, recursionsAttrName_data] at hd
  simp only [List.cons.injEq, true_and] at hd
  have hrev := congrArg List.reverse hd
  rw [List.reverse_append, List.reverse_append] at hrev
  have e1 : (("_subscribers").data).reverse =
      ['s','r','e','b','i','r','c','s','b','u','s','_'] := by decide
  have e2 : (("_recursions").data).reverse =
      ['s','n','o','i','s','r','u','c','e','r','_'] := by decide
  rw [e1, e2] at hrev
  simp only [List.cons_append, List.nil_append, List.cons.injEq] at hrev
  exact absurd hrev.2.1 (by decide)

/-! ### The freshly created class resolves declared names and only those -/

theorem setNameInit_instAttrs (p : String) (s : PyState) :
    (setNameInit p s).instAttrs = s.instAttrs := by
  unfold setNameInit allocClassList
  dsimp only
  repeat' split
  all_goals rfl

theorem initState_instAttrs (props : List String) :
    (initState props).instAttrs = emptyState.instAttrs := by
  unfold initState
  suffices hgen : ∀ s : PyState,
      (props.foldl (fun s p => setNameInit p s) s).instAttrs = s.instAttrs by
    exact hgen emptyState
  induction props with
  | nil => intro s; rfl
  | cons q rest ih =>
    intro s
    simp only [List.foldl_cons]
    rw [ih (setNameInit q s), setNameInit_instAttrs]

theorem setNameInit_classAttrs_other (p : String) (s : PyState) (n : String)
    (h1 : n ≠ subscribersAttrName p) (h2 : n ≠ recursionsAttrName p) :
    (setNameInit p s).classAttrs n = s.classAttrs n := by
  unfold setNameInit allocClassList
  dsimp only
  repeat' split
  all_goals simp [h1, h2]

theorem initState_classAttrs_not_declared (props : List String) (p : String)
    (hp : p ∉ props) :
    (initState props).classAttrs (subscribersAttrName p) = none := by
  unfold initState
  suffices hgen : ∀ s : PyState,
      s.classAttrs (subscribersAttrName p) = none → p ∉ props →
      (props.foldl (fun s q => setNameInit q s) s).classAttrs (subscribersAttrName p) = none by
    exact hgen emptyState rfl hp
  clear hp
  induction props with
  | nil => intro s hs _; exact hs
  | cons q rest ih =>
    intro s hs hp
    simp only [List.foldl_cons]
    refine ih (setNameInit q s) ?_ (fun hmem => hp (by simp [hmem]))
    rw [setNameInit_classAttrs_other q s (subscribersAttrName p)
      (fun hEq => hp (by simp [subscribersAttrName_inj hEq]))
      (subscribersAttrName_ne_recursionsAttrName p q)]
    exact hs

/-! ### Concrete fixtures used by the witnesses: a class declaring the
observable property `celsius` and a handful of callbacks. -/

/-- A callback that returns normally. -/
def cbA : Callback := ⟨1, true, CbBehavior.ret⟩

/-- A second callback that returns normally. -/
def cbB : Callback := ⟨2, true, CbBehavior.ret⟩

/-- A callback that raises an (unrelated) exception. -/
def cbRaise : Callback := ⟨3, true, CbBehavior.raiseErr⟩

/-- A callback that assigns 11 to `celsius` of instance 0 — re-entrant
when it observes that property of that instance. -/
def cbBad : Callback := ⟨4, true, CbBehavior.assign 0 11⟩

/-- A re-entrant callback without a `__name__` attribute (for example a
`functools.partial` object). -/
def cbNoName : Callback := ⟨5, false, CbBehavior.assign 0 6⟩

/-- The declared observable properties of the demo class. -/
def demoProps : List String := ["celsius"]

/-- The demo class right after class creation. -/
def demoInit : PyState := initState demoProps

/-- Demo state with `cbA` then `cbB` subscribed to `celsius` of
instance 0. -/
def claim1_state : PyState :=
  (subscribe ((subscribe demoInit cbA 0 ("celsius")).1) cbB 0 ("celsius")).1

/-- C1: for a declared observable attribute, assigning a value stores it
and invokes every currently subscribed callback exactly once, in
subscription order, each called with the instance, the attribute name
and the newly assigned value.  Hypotheses: the standard class-made
attribute resolution, an initially clear guard, no duplicate
subscriptions, and callbacks that return normally. -/
theorem claim1_set_notifies_in_order (fuel : Nat) (inst : Nat) (p : String) (v : Int)
    (s : PyState) (rs rr : Nat) (h : ResolvesTo s inst p rs rr)
    (hrecs : s.heap rr = []) (hnd : (s.heap rs).Nodup)
    (hret : ∀ cb ∈ s.heap rs, cb.behavior = CbBehavior.ret) :
    (observableSet (fuel + 1) inst p v s).2 =
      ((s.heap rs).map (fun cb => ⟨cb.id, inst, p, v⟩), Except.ok ()) ∧
    ((observableSet (fuel + 1) inst p v s).1).value inst p = some v := by
  rw [observableSet_ret_spec fuel inst p v s rs rr h hrecs hnd hret]
  exact ⟨rfl, by simp⟩

/-- Witness for C1: two subscribers, assignment of 20 to `celsius` of
instance 0 notifies both in order with the new value, which is stored. -/
theorem claim1_witness :
    (observableSet 1 0 ("celsius") 20 claim1_state).2 =
      ([⟨1, 0, "celsius", 20⟩, ⟨2, 0, "celsius", 20⟩], Except.ok ()) ∧
    ((observableSet 1 0 ("celsius") 20 claim1_state).1).value 0 ("celsius") = some 20 := by
  have h := claim1_set_notifies_in_order 0 0 ("celsius") 20 claim1_state 0 1
    ⟨by decide, by decide, by decide, by decide, by decide⟩
    (by decide) (by decide) (by decide)
  exact ⟨h.1.trans (by decide), h.2⟩

/-- C2 fails on the code: the descriptor's name hook installs the
subscriber and guard lists on the *class*, and they are only ever
mutated in place, so every instance of the class resolves the same two
list objects.  This theorem evaluates the code at the failing input:
`cbA` is subscribed on instance 0 only, yet assigning `celsius` on
instance 1 invokes it (with instance 1); and during instance 0's cycle a
callback assigning `celsius` of the *other* instance 1 is rejected by
the shared guard, so one instance's cycle does affect the other's. -/
theorem claim2_shared_lists :
    (observableSet 1 1 ("celsius") 25 claim1_state).2 =
      ([⟨1, 1, "celsius", 25⟩, ⟨2, 1, "celsius", 25⟩], Except.ok ()) ∧
    (observableSet 2 0 ("celsius") 10
        ((subscribe demoInit (⟨6, true, CbBehavior.assign 1 7⟩ : Callback) 0 ("celsius")).1)).2.2 =
      Except.error PyExc.observablePropertyError := by
  exact ⟨by decide, by decide⟩

theorem ResolvesTo.ofAttrsEq {s t : PyState} {inst : Nat} {p : String} {rs rr : Nat}
    (h : ResolvesTo s inst p rs rr)
    (h1 : t.instAttrs = s.instAttrs) (h2 : t.classAttrs = s.classAttrs) :
    ResolvesTo t inst p rs rr :=
  ⟨by rw [h1]; exact h.instSubs, by rw [h1]; exact h.instRecs,
   by rw [h2]; exact h.clsSubs, by rw [h2]; exact h.clsRecs, h.refsNe⟩

/-- C3: a lone subscribed callback that, while executing inside the
notification cycle, assigns to the same attribute of the same instance:
the nested assignment fails with `ObservablePropertyError` (which
propagates to the outer call site), the outer assignment still completes
— its value was stored before the callback ran, as the logged call
arguments show, and the nested store also took effect — the guard ends
empty, and once the offending callback is replaced by one that returns
normally, an ordinary assignment succeeds and notifies normally. -/
theorem claim3_reentrant (fuel : Nat) (inst : Nat) (p : String) (v w v2 : Int)
    (s : PyState) (rs rr : Nat) (bad cb2 : Callback)
    (h : ResolvesTo s inst p rs rr)
    (hbadB : bad.behavior = CbBehavior.assign inst w) (hbadN : bad.hasName = true)
    (hsubs : s.heap rs = [bad]) (hrecs : s.heap rr = [])
    (hcb2 : cb2.behavior = CbBehavior.ret) :
    (observableSet (fuel + 2) inst p v s).2.2 = Except.error PyExc.observablePropertyError ∧
    (observableSet (fuel + 2) inst p v s).2.1 = [⟨bad.id, inst, p, v⟩] ∧
    ((observableSet (fuel + 2) inst p v s).1).value inst p = some w ∧
    ((observableSet (fuel + 2) inst p v s).1).heap rr = [] ∧
    (observableSet (fuel + 1) inst p v2
        ((subscribe ((unsubscribe ((observableSet (fuel + 2) inst p v s).1) bad inst p).1)
          cb2 inst p).1)).2 =
      ([⟨cb2.id, inst, p, v2⟩], Except.ok ()) := by
  rw [observableSet_reentrant fuel inst p v w s rs rr bad h hbadB hsubs hrecs]
  refine ⟨by simp [hbadN], rfl, by simp, by simp, ?_⟩
  have h1 : ResolvesTo
      (writeHeap (storeValue (writeHeap (storeValue s inst p v) rr [bad]) inst p w) rr [])
      inst p rs rr := h.ofAttrsEq rfl rfl
  have hu : unsubscribe
      (writeHeap (storeValue (writeHeap (storeValue s inst p v) rr [bad]) inst p w) rr [])
      bad inst p =
      (writeHeap
        (writeHeap (storeValue (writeHeap (storeValue s inst p v) rr [bad]) inst p w) rr [])
        rs [], Except.ok true) := by
    unfold unsubscribe
    rw [h1.getSubs]
    simp [h.refsNe, hsubs, List.erase_cons_head]
  rw [hu]
  have h2 : ResolvesTo
      (writeHeap
        (writeHeap (storeValue (writeHeap (storeValue s inst p v) rr [bad]) inst p w) rr [])
        rs []) inst p rs rr := h.ofAttrsEq rfl rfl
  have hs3 : subscribe
      (writeHeap
        (writeHeap (storeValue (writeHeap (storeValue s inst p v) rr [bad]) inst p w) rr [])
        rs []) cb2 inst p =
      (writeHeap
        (writeHeap
          (writeHeap (storeValue (writeHeap (storeValue s inst p v) rr [bad]) inst p w) rr [])
          rs []) rs [cb2], Except.ok ()) := by
    unfold subscribe unsubscribe
    rw [h2.getSubs]
    simp
    rw [h2.getSubs]
    simp
  rw [hs3]
  have h3 : ResolvesTo
      (writeHeap
        (writeHeap
          (writeHeap (storeValue (writeHeap (storeValue s inst p v) rr [bad]) inst p w) rr [])
          rs []) rs [cb2]) inst p rs rr := h.ofAttrsEq rfl rfl
  rw [observableSet_ret_spec fuel inst p v2 _ rs rr h3
    (by simp [Ne.symm h.refsNe])
    (by simp)
    (by intro cb hcb; simp at hcb; rw [hcb, hcb2])]
  simp

/-- C10 (implicit): the guard-violation error path reads the offending
callback's `__name__` to build the message, so a subscribed callable
without a `__name__` attribute whose re-entrant assignment is detected
makes the cycle raise `AttributeError` instead of
`ObservablePropertyError`. -/
theorem claim10_nameless_reentry (fuel : Nat) (inst : Nat) (p : String) (v w : Int)
    (s : PyState) (rs rr : Nat) (cb : Callback)
    (h : ResolvesTo s inst p rs rr) (hn : cb.hasName = false)
    (hb : cb.behavior = CbBehavior.assign inst w)
    (hsubs : s.heap rs = [cb]) (hrecs : s.heap rr = []) :
    (observableSet (fuel + 2) inst p v s).2.2 = Except.error PyExc.attributeError := by
  rw [observableSet_reentrant fuel inst p v w s rs rr cb h hb hsubs hrecs]
  simp [hn]

/-- Demo state with the re-entrant callback `cbBad` subscribed to
`celsius` of instance 0. -/
def badState : PyState := (subscribe demoInit cbBad 0 ("celsius")).1

/-- Witness for C3: assigning 10 with `cbBad` subscribed raises
`ObservablePropertyError`; `cbBad` was called once with 10 (so the outer
store preceded it), the nested store left 11, the guard is empty, and
after replacing `cbBad` with `cbB` the assignment of 40 notifies
normally. -/
theorem claim3_witness :
    (observableSet 2 0 ("celsius") 10 badState).2.2 =
      Except.error PyExc.observablePropertyError ∧
    (observableSet 2 0 ("celsius") 10 badState).2.1 = [⟨4, 0, "celsius", 10⟩] ∧
    ((observableSet 2 0 ("celsius") 10 badState).1).value 0 ("celsius") = some 11 ∧
    ((observableSet 2 0 ("celsius") 10 badState).1).heap 1 = [] ∧
    (observableSet 1 0 ("celsius") 40
        ((subscribe ((unsubscribe ((observableSet 2 0 ("celsius") 10 badState).1) cbBad 0
          ("celsius")).1) cbB 0 ("celsius")).1)).2 =
      ([⟨2, 0, "celsius", 40⟩], Except.ok ()) := by
  have h := claim3_reentrant 0 0 ("celsius") 10 11 40 badState 0 1 cbBad cbB
    ⟨by decide, by decide, by decide, by decide, by decide⟩
    rfl rfl (by decide) (by decide) rfl
  exact ⟨h.1, h.2.1, h.2.2.1, h.2.2.2.1, h.2.2.2.2⟩

/-- Demo state with the nameless re-entrant callback subscribed. -/
def noNameState : PyState := (subscribe demoInit cbNoName 0 ("celsius")).1

/-- Witness for C10: with the nameless re-entrant callback subscribed,
assigning `celsius` raises `AttributeError`. -/
theorem claim10_witness :
    (observableSet 2 0 ("celsius") 3 noNameState).2.2 =
      Except.error PyExc.attributeError := by
  exact claim10_nameless_reentry 0 0 ("celsius") 3 6 noNameState 0 1 cbNoName
    ⟨by decide, by decide, by decide, by decide, by decide⟩
    rfl rfl (by decide) (by decide)

/-- C4: `subscribe` first removes any existing identical subscription,
then appends the callback: the call succeeds, the resulting list is the
old list with the callback's entry removed and the callback appended,
holding exactly one entry for it, at the end — re-subscribing moves its
notification position to last.  The at-most-one-entry hypothesis is the
invariant the facade itself maintains (lists start empty, `subscribe`
deduplicates, `unsubscribe` only removes). -/
theorem claim4_subscribe_moves_to_end (s : PyState) (cb : Callback) (inst : Nat)
    (p : String) (rs : Nat)
    (hi : s.instAttrs inst (subscribersAttrName p) = none)
    (hc : s.classAttrs (subscribersAttrName p) = some rs)
    (hcount : (s.heap rs).count cb ≤ 1) :
    (subscribe s cb inst p).2 = Except.ok () ∧
    ((subscribe s cb inst p).1).heap rs = ((s.heap rs).erase cb) ++ [cb] ∧
    (((subscribe s cb inst p).1).heap rs).count cb = 1 ∧
    (((subscribe s cb inst p).1).heap rs).getLast? = some cb := by
  have hget : getattrList s inst (subscribersAttrName p) = some rs := by
    simp [getattrList, hi, hc]
  unfold subscribe unsubscribe
  rw [hget]
  by_cases hmem : cb ∈ s.heap rs
  · simp only [hmem, if_true]
    have hget2 : getattrList (writeHeap s rs ((s.heap rs).erase cb)) inst
        (subscribersAttrName p) = some rs := by
      simp [getattrList, hi, hc]
    rw [hget2]
    have hone : (s.heap rs).count cb = 1 :=
      le_antisymm hcount (List.count_pos_iff.mpr hmem)
    refine ⟨rfl, by simp, ?_, by simp [List.getLast?_concat]⟩
    simp [List.count_append, List.count_erase_self, hone]
  · simp only [hmem, if_false]
    rw [hget]
    have hzero : (s.heap rs).count cb = 0 := List.count_eq_zero.mpr hmem
    refine ⟨rfl, by simp [List.erase_of_not_mem hmem], ?_, by simp [List.getLast?_concat]⟩
    simp [List.count_append, hzero]

/-- Witness for C4: starting from subscribers `[cbA, cbB]`,
re-subscribing `cbA` yields `[cbB, cbA]` — one entry, now last. -/
theorem claim4_witness :
    (subscribe claim1_state cbA 0 ("celsius")).2 = Except.ok () ∧
    ((subscribe claim1_state cbA 0 ("celsius")).1).heap 0 = [cbB, cbA] ∧
    (((subscribe claim1_state cbA 0 ("celsius")).1).heap 0).count cbA = 1 ∧
    (((subscribe claim1_state cbA 0 ("celsius")).1).heap 0).getLast? = some cbA := by
  have h := claim4_subscribe_moves_to_end claim1_state cbA 0 ("celsius") 0
    (by decide) (by decide) (by decide)
  exact ⟨h.1, h.2.1.trans (by decide), h.2.2.1, h.2.2.2⟩

/-- C5: the recursion guard is cleared unconditionally when a set cycle
ends — with no assumption at all on the callbacks' behaviour, so in
particular when one raises — and consequently a later assignment on the
resulting state runs its full notification cycle whenever its
subscribers are well-behaved. -/
theorem claim5_guard_cleared (fuel fuel2 : Nat) (inst : Nat) (p : String) (v v2 : Int)
    (s : PyState) (rs rr : Nat) (h : ResolvesTo s inst p rs rr) :
    ((observableSet (fuel + 1) inst p v s).1).heap rr = [] ∧
    (∀ l2 : List Callback, ((observableSet (fuel + 1) inst p v s).1).heap rs = l2 →
      l2.Nodup → (∀ cb ∈ l2, cb.behavior = CbBehavior.ret) →
      (observableSet (fuel2 + 1) inst p v2 ((observableSet (fuel + 1) inst p v s).1)).2 =
        (l2.map (fun cb => ⟨cb.id, inst, p, v2⟩), Except.ok ())) := by
  have hclear : ((observableSet (fuel + 1) inst p v s).1).heap rr = [] := by
    unfold observableSet
    rw [h.getSubs, h.getRecs]
    simp
  refine ⟨hclear, ?_⟩
  intro l2 hl2 hnd hret
  have hpres := observableSet_preserves (fuel + 1) inst p v s
  have h2 : ResolvesTo ((observableSet (fuel + 1) inst p v s).1) inst p rs rr :=
    h.ofAttrsEq hpres.2 hpres.1
  rw [observableSet_ret_spec fuel2 inst p v2 _ rs rr h2 hclear (hl2 ▸ hnd)
    (hl2 ▸ hret)]
  rw [hl2]

/-- Demo state with the raising callback `cbRaise` subscribed. -/
def raiseState : PyState := (subscribe demoInit cbRaise 0 ("celsius")).1

/-- Witness for C5: a cycle whose only callback raises leaves the guard
empty, and on a state with well-behaved subscribers the next assignment
runs a full cycle. -/
theorem claim5_witness :
    ((observableSet 1 0 ("celsius") 7 raiseState).1).heap 1 = [] ∧
    (observableSet 1 0 ("celsius") 9 ((observableSet 1 0 ("celsius") 7 claim1_state).1)).2 =
      ([⟨1, 0, "celsius", 9⟩, ⟨2, 0, "celsius", 9⟩], Except.ok ()) := by
  have ha := claim5_guard_cleared 0 0 0 ("celsius") 7 9 raiseState 0 1
    ⟨by decide, by decide, by decide, by decide, by decide⟩
  have hb := claim5_guard_cleared 0 0 0 ("celsius") 7 9 claim1_state 0 1
    ⟨by decide, by decide, by decide, by decide, by decide⟩
  exact ⟨ha.1, (hb.2 [cbA, cbB] (by decide) (by decide) (by decide)).trans (by decide)⟩

/-- C6: the backing value is stored before any subscriber runs: with
subscribers that may raise but do not re-assign, the value read after
the assignment is the newly assigned one, whether or not the cycle
raised. -/
theorem claim6_value_stored (fuel : Nat) (inst : Nat) (p : String) (v : Int)
    (s : PyState) (rs rr : Nat) (h : ResolvesTo s inst p rs rr)
    (hna : ∀ cb ∈ s.heap rs, cb.behavior.isAssign = false) :
    ((observableSet (fuel + 1) inst p v s).1).value inst p = some v := by
  unfold observableSet
  rw [h.getSubs, h.getRecs]
  have hval := execCallbacksWith_value (observableSet fuel) inst p v rr
    (s.heap rs) (storeValue s inst p v) hna
  simp [hval]

/-- Witness for C6: the only subscriber raises, the call site sees the
exception, and reading the attribute afterwards returns the newly
assigned value 33. -/
theorem claim6_witness :
    (observableSet 1 0 ("celsius") 33 raiseState).2.2 = Except.error PyExc.userError ∧
    ((observableSet 1 0 ("celsius") 33 raiseState).1).value 0 ("celsius") = some 33 := by
  have h := claim6_value_stored 0 0 ("celsius") 33 raiseState 0 1
    ⟨by decide, by decide, by decide, by decide, by decide⟩
    (by decide)
  exact ⟨by decide, h⟩

/-- C7: for every instance and every name that is not a declared
observable property of the class, `subscribe`, `unsubscribe` and the
mixin's manual notification each fail with `ObservablePropertyError`.
The state may differ from the freshly created class in its heap and
backing store (that is, after arbitrary subscriptions and assignments),
since those operations never touch the attribute dictionaries. -/
theorem claim7_not_observable (props : List String) (p : String) (hp : p ∉ props)
    (cb : Callback) (inst fuel : Nat) (s : PyState)
    (hca : s.classAttrs = (initState props).classAttrs)
    (hia : s.instAttrs = (initState props).instAttrs) :
    (unsubscribe s cb inst p).2 = Except.error PyExc.observablePropertyError ∧
    (subscribe s cb inst p).2 = Except.error PyExc.observablePropertyError ∧
    (observableNotify fuel props inst p s).2.2 =
      Except.error PyExc.observablePropertyError := by
  have hinst : s.instAttrs inst (subscribersAttrName p) = none := by
    rw [hia, initState_instAttrs]; rfl
  have hnone : getattrList s inst (subscribersAttrName p) = none := by
    simp [getattrList, hinst, hca, initState_classAttrs_not_declared props p hp]
  have hun : unsubscribe s cb inst p = (s, Except.error PyExc.observablePropertyError) := by
    unfold unsubscribe; rw [hnone]
  refine ⟨by rw [hun], ?_, ?_⟩
  · unfold subscribe; rw [hun]
  · unfold observableNotify; simp [hp]

/-- Witness for C7: `pressure` is not a declared observable property of
the demo class, so all three operations reject it. -/
theorem claim7_witness :
    (unsubscribe demoInit cbA 0 ("pressure")).2 =
      Except.error PyExc.observablePropertyError ∧
    (subscribe demoInit cbA 0 ("pressure")).2 =
      Except.error PyExc.observablePropertyError ∧
    (observableNotify 1 demoProps 0 ("pressure") demoInit).2.2 =
      Except.error PyExc.observablePropertyError := by
  exact claim7_not_observable demoProps ("pressure") (by decide) cbA 0 1 demoInit rfl rfl

/-- C8: for a declared observable property, `unsubscribe` removes
exactly one matching entry (the first) and returns true when the
callback is currently subscribed; when it is not, it returns false and
leaves the state — in particular the subscriber list — unchanged. -/
theorem claim8_unsubscribe_spec (s : PyState) (cb : Callback) (inst : Nat)
    (p : String) (rs : Nat)
    (hi : s.instAttrs inst (subscribersAttrName p) = none)
    (hc : s.classAttrs (subscribersAttrName p) = some rs) :
    (cb ∈ s.heap rs →
      unsubscribe s cb inst p = (writeHeap s rs ((s.heap rs).erase cb), Except.ok true) ∧
      (((unsubscribe s cb inst p).1).heap rs).count cb = (s.heap rs).count cb - 1 ∧
      (((unsubscribe s cb inst p).1).heap rs).length = (s.heap rs).length - 1) ∧
    (cb ∉ s.heap rs → unsubscribe s cb inst p = (s, Except.ok false)) := by
  have hget : getattrList s inst (subscribersAttrName p) = some rs := by
    simp [getattrList, hi, hc]
  constructor
  · intro hmem
    have hun : unsubscribe s cb inst p =
        (writeHeap s rs ((s.heap rs).erase cb), Except.ok true) := by
      unfold unsubscribe
      rw [hget]
      simp [hmem]
    refine ⟨hun, ?_, ?_⟩
    · rw [hun]; simp [List.count_erase_self]
    · rw [hun]; simp [List.length_erase_of_mem hmem]
  · intro hmem
    unfold unsubscribe
    rw [hget]
    simp [hmem]

/-- Witness for C8: `cbA` is subscribed, so it is removed (list length
and its count drop by one) with result true; `cbRaise` is not
subscribed, so the state is returned unchanged with result false. -/
theorem claim8_witness :
    (((unsubscribe claim1_state cbA 0 ("celsius")).1).heap 0).count cbA =
      (claim1_state.heap 0).count cbA - 1 ∧
    (((unsubscribe claim1_state cbA 0 ("celsius")).1).heap 0).length =
      (claim1_state.heap 0).length - 1 ∧
    unsubscribe claim1_state cbRaise 0 ("celsius") = (claim1_state, Except.ok false) := by
  have h1 := claim8_unsubscribe_spec claim1_state cbA 0 ("celsius") 0
    (by decide) (by decide)
  have h2 := claim8_unsubscribe_spec claim1_state cbRaise 0 ("celsius") 0
    (by decide) (by decide)
  exact ⟨(h1.1 (by decide)).2.1, (h1.1 (by decide)).2.2, h2.2 (by decide)⟩

/-! ### The facade maintains the at-most-one-entry invariant assumed by
the C4 theorem: all lists start empty at class creation, `unsubscribe`
only removes, and `subscribe` deduplicates. -/

theorem initState_heap_empty (props : List String) (r : Nat) :
    (initState props).heap r = [] := by
  unfold initState
  suffices hgen : ∀ s : PyState, (∀ r2 : Nat, s.heap r2 = []) →
      (props.foldl (fun s q => setNameInit q s) s).heap r = [] by
    exact hgen emptyState (fun _ => rfl)
  induction props with
  | nil => intro s hs; exact hs r
  | cons q rest ih =>
    intro s hs
    simp only [List.foldl_cons]
    refine ih (setNameInit q s) ?_
    intro r2
    unfold setNameInit allocClassList
    dsimp only
    repeat' split
    all_goals simp [hs r2]

theorem unsubscribe_count_le_one (s : PyState) (cb cb2 : Callback) (inst : Nat)
    (p : String) (hinv : ∀ r : Nat, ((s.heap r).count cb2) ≤ 1) (r : Nat) :
    (((unsubscribe s cb inst p).1).heap r).count cb2 ≤ 1 := by
  unfold unsubscribe
  cases hg : getattrList s inst (subscribersAttrName p) with
  | none => exact hinv r
  | some r0 =>
    by_cases hmem : cb ∈ s.heap r0
    · simp only [hmem, if_true, writeHeap_heap]
      by_cases hr : r = r0
      · simp only [hr, if_true]
        by_cases hcb : cb2 = cb
        · subst hcb
          calc ((s.heap r0).erase cb2).count cb2 = (s.heap r0).count cb2 - 1 :=
                List.count_erase_self cb2 (s.heap r0)
            _ ≤ 1 := le_trans (Nat.sub_le _ _) (hinv r0)
        · rw [List.count_erase_of_ne hcb]
          exact hinv r0
      · simp only [hr, if_false]
        exact hinv r
    · simp only [hmem, if_false]
      exact hinv r

theorem subscribe_count_le_one (s : PyState) (cb cb2 : Callback) (inst : Nat)
    (p : String) (hinv : ∀ r : Nat, ((s.heap r).count cb2) ≤ 1)
    (hcb : ∀ r : Nat, ((s.heap r).count cb) ≤ 1) (r : Nat) :
    (((subscribe s cb inst p).1).heap r).count cb2 ≤ 1 := by
  unfold subscribe unsubscribe
  cases hg : getattrList s inst (subscribersAttrName p) with
  | none => exact hinv r
  | some r0 =>
    by_cases hmem : cb ∈ s.heap r0
    · simp only [hmem, if_true]
      have hg2 : getattrList (writeHeap s r0 ((s.heap r0).erase cb)) inst
          (subscribersAttrName p) = some r0 := hg
      rw [hg2]
      simp only [writeHeap_heap]
      by_cases hr : r = r0
      · subst hr
        simp only [if_true]
        have hpos : 0 < (s.heap r).count cb := List.count_pos_iff.mpr hmem
        by_cases hcc : cb2 = cb
        · subst hcc
          rw [List.count_append, List.count_erase_self]
          have h1 := hinv r
          have h2 : ([cb2].count cb2) = 1 := by simp
          omega
        · rw [List.count_append, List.count_erase_of_ne hcc]
          have hz : ([cb].count cb2) = 0 :=
            List.count_eq_zero.mpr (by simp [hcc])
          rw [hz]
          simpa using hinv r
      · simp only [hr, if_false]
        exact hinv r
    · simp only [hmem, if_false]
      rw [hg]
      simp only [writeHeap_heap]
      by_cases hr : r = r0
      · subst hr
        simp only [if_true]
        by_cases hcc : cb2 = cb
        · subst hcc
          rw [List.count_append, List.count_eq_zero.mpr hmem]
          have h2 : ([cb2].count cb2) = 1 := by simp
          omega
        · rw [List.count_append]
          have hz : ([cb].count cb2) = 0 :=
            List.count_eq_zero.mpr (by simp [hcc])
          rw [hz]
          simpa using hinv r
      · simp only [hr, if_false]
        exact hinv r
def claim9_state : PyState :=
  (observableSet 1 0 ("celsius") 20 (subscribe demoInit cbA 0 ("celsius")).1).1

/-- C9 fails on the code: `observable.__delete__` runs the property
deleter (removing the stored value) and then calls `delattr` on the
instance for the subscriber-list and guard attributes — but those names
live only in the class dictionary, never in the instance dictionary, so
`delattr` raises `AttributeError`.  The subscriber list survives the
deletion, and a subsequent `subscribe` on the deleted attribute still
succeeds instead of failing as not observable.  This theorem evaluates
the code at the failing input. -/
theorem claim9_delete_keeps_subscriptions :
    (observableDelete claim9_state 0 ("celsius")).2 = Except.error PyExc.attributeError ∧
    ((observableDelete claim9_state 0 ("celsius")).1).value 0 ("celsius") = none ∧
    ((observableDelete claim9_state 0 ("celsius")).1).heap 0 = [cbA] ∧
    (subscribe ((observableDelete claim9_state 0 ("celsius")).1) cbB 0 ("celsius")).2 =
      Except.ok () := by
  exact ⟨by decide, by decide, by decide, by decide⟩

end ObservableProps
